import Mathlib

/-!
Shallow embedding of the lalg 3D math kernel.

The repository has two source files, src/vec4.rs and src/mat4.rs.  They
implement a 4-lane vector `Vec4` and a column-major 4x4 matrix `Mat4` over
f32.  We model the f32 scalars as real numbers, keeping every arithmetic
expression exactly as written in the source (`sqrt`, `cos`, `sin` become
Real.sqrt, Real.cos, Real.sin).  Imperative array writes (`elements[i] = v`,
`elements[i] += v`, ...) become `Function.update` steps applied in the
source's statement order, and the triple loop of the matrix product becomes
a fold over the loop ranges.  The `Index`/`IndexMut` impls panic for an
out-of-range index; we model the panic as an `Except.error` carrying the
panic message.
-/

noncomputable section

/-- Vec4 from src/vec4.rs: four scalar lanes x, y, z, w (f32 modelled as real). -/
structure Vec4 where
  x : ℝ
  y : ℝ
  z : ℝ
  w : ℝ

namespace Vec4

/-- Vec4::new. -/
def new (x y z w : ℝ) : Vec4 := ⟨x, y, z, w⟩

/-- Vec4::zero. -/
def zero : Vec4 := ⟨0, 0, 0, 0⟩

/-- Vec4::one. -/
def one : Vec4 := ⟨1, 1, 1, 1⟩

/-- Vec4::dot: sum of per-lane products. -/
def dot (a b : Vec4) : ℝ := a.x * b.x + a.y * b.y + a.z * b.z + a.w * b.w

/-- Vec4::length: sqrt of self-dot. -/
def length (a : Vec4) : ℝ := Real.sqrt (a.dot a)

/-- Vec4::normalize: each lane divided by the length. -/
def normalize (a : Vec4) : Vec4 :=
  let length := a.length
  ⟨a.x / length, a.y / length, a.z / length, a.w / length⟩

/-- Vec4::cross: 3D cross product on x,y,z; the w lane of the result is 0. -/
def cross (a b : Vec4) : Vec4 :=
  ⟨a.y * b.z - a.z * b.y, a.z * b.x - a.x * b.z, a.x * b.y - a.y * b.x, 0⟩

/-- Add for Vec4 (component-wise). -/
def add (a b : Vec4) : Vec4 := ⟨a.x + b.x, a.y + b.y, a.z + b.z, a.w + b.w⟩

/-- Mul of Vec4 by Vec4 from src/vec4.rs: the operator body is the cross
product formula (commented "cross product" in the source). -/
def mul (a b : Vec4) : Vec4 :=
  ⟨a.y * b.z - a.z * b.y, a.z * b.x - a.x * b.z, a.x * b.y - a.y * b.x, 0⟩

/-- Indexing from src/vec4.rs: indices 0..3 return the x,y,z,w lane; any
other index panics with the message "Index out of bounds".  The panic is
modelled as an Except.error carrying that message. -/
def index (v : Vec4) (i : Nat) : Except String ℝ :=
  match i with
  | 0 => Except.ok v.x
  | 1 => Except.ok v.y
  | 2 => Except.ok v.z
  | 3 => Except.ok v.w
  | _ => Except.error "Index out of bounds"

/-- Mutable indexing from src/vec4.rs, modelled as a functional setter:
indices 0..3 write the x,y,z,w lane; any other index panics with the
message "Index out of bounds". -/
def indexMut (v : Vec4) (i : Nat) (value : ℝ) : Except String Vec4 :=
  match i with
  | 0 => Except.ok ⟨value, v.y, v.z, v.w⟩
  | 1 => Except.ok ⟨v.x, value, v.z, v.w⟩
  | 2 => Except.ok ⟨v.x, v.y, value, v.w⟩
  | 3 => Except.ok ⟨v.x, v.y, v.z, value⟩
  | _ => Except.error "Index out of bounds"

end Vec4

/-- Mat4 from src/mat4.rs: 16 scalar elements in column-major layout
(flattened index = column * 4 + row). -/
structure Mat4 where
  elements : Fin 16 → ℝ

namespace Mat4

/-- Mat4::zeroes: all 16 elements 0. -/
def zeroes : Mat4 := ⟨fun _ => 0⟩

/-- Mat4::identity as written in src/mat4.rs: starts from all zeroes and
assigns 1.0 at flattened indices 0, 5, 9 and 13 (the source's literal
index choices). -/
def identity : Mat4 :=
  let e0 : Fin 16 → ℝ := fun _ => 0
  let e1 := Function.update e0 0 1
  let e2 := Function.update e1 5 1
  let e3 := Function.update e2 9 1
  let e4 := Function.update e3 13 1
  ⟨e4⟩

/-- Mat4::position: reads the fourth column (indices 12..15) as a Vec4. -/
def position (m : Mat4) : Vec4 :=
  ⟨m.elements 12, m.elements 13, m.elements 14, m.elements 15⟩

/-- Mat4::translate: copy of the elements with indices 12, 13, 14
incremented by the translation's x, y, z. -/
def translate (m : Mat4) (translation : Vec4) : Mat4 :=
  let e0 := m.elements
  let e1 := Function.update e0 12 (e0 12 + translation.x)
  let e2 := Function.update e1 13 (e1 13 + translation.y)
  let e3 := Function.update e2 14 (e2 14 + translation.z)
  ⟨e3⟩

/-- Mat4::scale: copy of the elements with indices 0, 5, 10 multiplied by
the scale's x, y, z. -/
def scale (m : Mat4) (s : Vec4) : Mat4 :=
  let e0 := m.elements
  let e1 := Function.update e0 0 (e0 0 * s.x)
  let e2 := Function.update e1 5 (e1 5 * s.y)
  let e3 := Function.update e2 10 (e2 10 * s.z)
  ⟨e3⟩

/-- Mat4::rodrigues: Rodrigues rotation matrix from an axis and an angle,
assigning all 16 elements of a fresh zero array in source order.  The
receiver is unused by the source body. -/
def rodrigues (_m : Mat4) (axis : Vec4) (angle : ℝ) : Mat4 :=
  let c := Real.cos angle
  let s := Real.sin angle
  let t := 1 - c
  let x := axis.x
  let y := axis.y
  let z := axis.z
  let e0 : Fin 16 → ℝ := fun _ => 0
  let e1 := Function.update e0 0 (t * x * x + c)
  let e2 := Function.update e1 1 (t * x * y - s * z)
  let e3 := Function.update e2 2 (t * x * z + s * y)
  let e4 := Function.update e3 3 0
  let e5 := Function.update e4 4 (t * x * y + s * z)
  let e6 := Function.update e5 5 (t * y * y + c)
  let e7 := Function.update e6 6 (t * y * z - s * x)
  let e8 := Function.update e7 7 0
  let e9 := Function.update e8 8 (t * x * z - s * y)
  let e10 := Function.update e9 9 (t * y * z + s * x)
  let e11 := Function.update e10 10 (t * z * z + c)
  let e12 := Function.update e11 11 0
  let e13 := Function.update e12 12 0
  let e14 := Function.update e13 13 0
  let e15 := Function.update e14 14 0
  let e16 := Function.update e15 15 1
  ⟨e16⟩

/-- Mat4::view: right-handed look-at matrix.  The source rebinds `up` and
`forward` to the renormalised basis; we name them upv and forwardv. -/
def view (position forward up : Vec4) : Mat4 :=
  let right := (forward.cross up).normalize
  let upv := (right.cross forward).normalize
  let forwardv := forward.normalize
  let e0 : Fin 16 → ℝ := fun _ => 0
  let e1 := Function.update e0 0 right.x
  let e2 := Function.update e1 4 right.y
  let e3 := Function.update e2 8 right.z
  let e4 := Function.update e3 1 upv.x
  let e5 := Function.update e4 5 upv.y
  let e6 := Function.update e5 9 upv.z
  let e7 := Function.update e6 2 (-forwardv.x)
  let e8 := Function.update e7 6 (-forwardv.y)
  let e9 := Function.update e8 10 (-forwardv.z)
  let e10 := Function.update e9 12 (-(right.dot position))
  let e11 := Function.update e10 13 (-(upv.dot position))
  let e12 := Function.update e11 14 (forwardv.dot position)
  let e13 := Function.update e12 15 1
  ⟨e13⟩

/-- Loop range 0..4 of the matrix-product triple loop. -/
def loopIdx : List (Fin 4) := [0, 1, 2, 3]

/-- Flattened column-major index col * 4 + row. -/
def mat4Idx (col row : Fin 4) : Fin 16 :=
  ⟨col.val * 4 + row.val, by
    have hc := col.isLt
    have hr := row.isLt
    omega⟩

/-- MulAssign of Mat4 by Mat4 from src/mat4.rs: the triple loop accumulates
result[col*4+row] += self[k*4+row] * rhs[col*4+k] into a fresh zero array,
which then replaces self's elements. -/
def mulAssign (self rhs : Mat4) : Mat4 :=
  let result :=
    loopIdx.foldl
      (fun acc col =>
        loopIdx.foldl
          (fun acc row =>
            loopIdx.foldl
              (fun acc k =>
                Function.update acc (mat4Idx col row)
                  (acc (mat4Idx col row) +
                    self.elements (mat4Idx k row) * rhs.elements (mat4Idx col k)))
              acc)
          acc)
      (fun _ => 0)
  ⟨result⟩

/-- Mul of Mat4 by Mat4 from src/mat4.rs: a copy of self followed by
MulAssign with the right-hand side. -/
def mulMat (self rhs : Mat4) : Mat4 :=
  let out := self
  out.mulAssign rhs

/-- Mul of Mat4 by Vec4 from src/mat4.rs: column-major matrix-vector
product treating the vector as a homogeneous column. -/
def mulVec (m : Mat4) (rhs : Vec4) : Vec4 :=
  let x := m.elements 0 * rhs.x + m.elements 4 * rhs.y + m.elements 8 * rhs.z +
    m.elements 12 * rhs.w
  let y := m.elements 1 * rhs.x + m.elements 5 * rhs.y + m.elements 9 * rhs.z +
    m.elements 13 * rhs.w
  let z := m.elements 2 * rhs.x + m.elements 6 * rhs.y + m.elements 10 * rhs.z +
    m.elements 14 * rhs.w
  let w := m.elements 3 * rhs.x + m.elements 7 * rhs.y + m.elements 11 * rhs.z +
    m.elements 15 * rhs.w
  ⟨x, y, z, w⟩

end Mat4

/-- C1: the claim says Mat4::identity puts 1.0 exactly at flattened indices
0, 5, 10, 15.  The code instead writes 1.0 at indices 0, 5, 9, 13 and leaves
10 and 15 at 0.0; this theorem evaluates identity at those indices. -/
theorem identity_sets_indices_9_13_not_10_15 :
    Mat4.identity.elements 0 = 1 ∧ Mat4.identity.elements 5 = 1 ∧
    Mat4.identity.elements 9 = 1 ∧ Mat4.identity.elements 13 = 1 ∧
    Mat4.identity.elements 10 = 0 ∧ Mat4.identity.elements 15 = 0 := by
  simp +decide [Mat4.identity, Function.update_apply]

/-- C2: the claim says identity().scale(Vec4::new(2,3,4,1)) has diagonal
2, 3, 4, 1 at flattened indices 0, 5, 10, 15 and 0 everywhere else.  The
code yields 2 and 3 at indices 0 and 5 but 0 at indices 10 and 15, with
stray 1.0 entries at indices 9 and 13, because identity() wrote its 1.0s at
9 and 13 instead of 10 and 15. -/
theorem scale_scenario_diverges :
    (Mat4.identity.scale (Vec4.new 2 3 4 1)).elements 0 = 2 ∧
    (Mat4.identity.scale (Vec4.new 2 3 4 1)).elements 5 = 3 ∧
    (Mat4.identity.scale (Vec4.new 2 3 4 1)).elements 10 = 0 ∧
    (Mat4.identity.scale (Vec4.new 2 3 4 1)).elements 15 = 0 ∧
    (Mat4.identity.scale (Vec4.new 2 3 4 1)).elements 9 = 1 ∧
    (Mat4.identity.scale (Vec4.new 2 3 4 1)).elements 13 = 1 := by
  norm_num +decide [Mat4.identity, Mat4.scale, Vec4.new, Function.update_apply]

/-- C3: the claim says rodrigues(axis, 0) equals identity() element-wise
for every axis.  At angle 0 rodrigues builds the true identity (1.0 at
indices 0, 5, 10, 15), but identity() holds 1.0 at 9 and 13 and 0.0 at 10
and 15, so the two matrices differ, e.g. at indices 9 and 10 for axis
(1,2,3,0). -/
theorem rodrigues_zero_angle_differs_from_identity :
    (Mat4.zeroes.rodrigues (Vec4.new 1 2 3 0) 0).elements 10 = 1 ∧
    Mat4.identity.elements 10 = 0 ∧
    (Mat4.zeroes.rodrigues (Vec4.new 1 2 3 0) 0).elements 9 = 0 ∧
    Mat4.identity.elements 9 = 1 := by
  norm_num +decide [Mat4.identity, Mat4.rodrigues, Mat4.zeroes, Vec4.new,
    Function.update_apply, Real.cos_zero, Real.sin_zero]

/-- C4: the claim says identity() is a left and right identity for the
matrix product and fixes every vector.  Because identity() writes its 1.0s
at indices 9 and 13 instead of 10 and 15, identity() * v moves the z lane
into the y lane (v = (0,0,1,0) maps to (0,1,0,0)), and multiplying the true
identity matrix R = rodrigues(zero axis, 0) on the left by identity() gives
back identity(), whose element 10 is 0 while R's element 10 is 1. -/
theorem identity_mul_not_identity :
    Mat4.identity.mulVec (Vec4.new 0 0 1 0) ≠ Vec4.new 0 0 1 0 ∧
    (Mat4.identity.mulMat (Mat4.zeroes.rodrigues (Vec4.new 0 0 0 0) 0)).elements 10 = 0 ∧
    (Mat4.zeroes.rodrigues (Vec4.new 0 0 0 0) 0).elements 10 = 1 := by
  refine ⟨fun h => ?_, ?_, ?_⟩
  · have hy := congrArg Vec4.y h
    norm_num +decide [Mat4.mulVec, Mat4.identity, Vec4.new, Function.update_apply] at hy
  · norm_num +decide [Mat4.identity, Mat4.mulMat, Mat4.mulAssign, Mat4.zeroes,
      Mat4.rodrigues, Vec4.new, Mat4.loopIdx, Mat4.mat4Idx, Function.update_apply,
      Real.cos_zero, Real.sin_zero]
  · norm_num +decide [Mat4.zeroes, Mat4.rodrigues, Vec4.new, Function.update_apply,
      Real.cos_zero, Real.sin_zero]

/-- C5 counterexample: the claim says element 12, 13 and 14 of
view(position, forward, up) are the NEGATIVE dot products of the three
renormalised basis vectors with position.  The code writes the POSITIVE
dot product of the normalised forward with position into element 14.  With
position = forward = (0,0,1,0) and up = (0,1,0,0), element 14 is 1 while
the claimed value is -1. -/
theorem view_element14_counterexample :
    (Mat4.view (Vec4.new 0 0 1 0) (Vec4.new 0 0 1 0) (Vec4.new 0 1 0 0)).elements 14 ≠
      -(Vec4.dot (Vec4.normalize (Vec4.new 0 0 1 0)) (Vec4.new 0 0 1 0)) := by
  norm_num +decide [Mat4.view, Vec4.new, Vec4.cross, Vec4.normalize, Vec4.length,
    Vec4.dot, Function.update_apply, Real.sqrt_one]

/-- C5 amended: with right = normalize(cross(forward, up)),
upv = normalize(cross(right, forward)) and forwardv = normalize(forward),
the basis rows of view(position, forward, up) hold right, upv and
-forwardv, elements 12 and 13 hold the negative dot products of right and
upv with position, and element 14 holds the POSITIVE dot product of
forwardv with position. -/
theorem view_layout_amended (position forward up : Vec4) :
    (Mat4.view position forward up).elements 0 = ((forward.cross up).normalize).x ∧
    (Mat4.view position forward up).elements 4 = ((forward.cross up).normalize).y ∧
    (Mat4.view position forward up).elements 8 = ((forward.cross up).normalize).z ∧
    (Mat4.view position forward up).elements 1 =
      ((((forward.cross up).normalize).cross forward).normalize).x ∧
    (Mat4.view position forward up).elements 5 =
      ((((forward.cross up).normalize).cross forward).normalize).y ∧
    (Mat4.view position forward up).elements 9 =
      ((((forward.cross up).normalize).cross forward).normalize).z ∧
    (Mat4.view position forward up).elements 2 = -(forward.normalize).x ∧
    (Mat4.view position forward up).elements 6 = -(forward.normalize).y ∧
    (Mat4.view position forward up).elements 10 = -(forward.normalize).z ∧
    (Mat4.view position forward up).elements 12 =
      -(((forward.cross up).normalize).dot position) ∧
    (Mat4.view position forward up).elements 13 =
      -(((((forward.cross up).normalize).cross forward).normalize).dot position) ∧
    (Mat4.view position forward up).elements 14 = (forward.normalize).dot position := by
  simp +decide [Mat4.view, Function.update_apply]

/-- C6: translate adds the vector to the position column: the x, y, z
lanes of (M.translate v).position are those of M.position + v, the w lane
of the position column is unchanged, and every flattened element other
than 12, 13, 14 equals the corresponding element of M. -/
theorem translate_position_add (M : Mat4) (v : Vec4) :
    ((M.translate v).position).x = ((M.position).add v).x ∧
    ((M.translate v).position).y = ((M.position).add v).y ∧
    ((M.translate v).position).z = ((M.position).add v).z ∧
    ((M.translate v).position).w = (M.position).w ∧
    ∀ i : Fin 16, i ≠ 12 → i ≠ 13 → i ≠ 14 → (M.translate v).elements i = M.elements i := by
  refine ⟨?_, ?_, ?_, ?_, ?_⟩
  · simp +decide [Mat4.translate, Mat4.position, Vec4.add, Function.update_apply]
  · simp +decide [Mat4.translate, Mat4.position, Vec4.add, Function.update_apply]
  · simp +decide [Mat4.translate, Mat4.position, Vec4.add, Function.update_apply]
  · simp +decide [Mat4.translate, Mat4.position, Function.update_apply]
  · intro i h12 h13 h14
    simp [Mat4.translate, Function.update_apply, h12, h13, h14]

/-- C6 witness: translate_position_add applied at M = zeroes,
v = (1,2,3,4), with the unchanged-element part instantiated at index 0. -/
theorem translate_position_add_witness :
    (Mat4.zeroes.translate (Vec4.new 1 2 3 4)).elements 0 = Mat4.zeroes.elements 0 :=
  (translate_position_add Mat4.zeroes (Vec4.new 1 2 3 4)).2.2.2.2 0
    (by decide) (by decide) (by decide)

/-- C7: the Vec4-by-Vec4 multiplication operator computes exactly the
cross product, and the w lane of its result is 0 whatever the operands'
w lanes are. -/
theorem vec_mul_is_cross (a b : Vec4) :
    Vec4.mul a b = Vec4.cross a b ∧ (Vec4.mul a b).w = 0 :=
  ⟨rfl, rfl⟩

/-- C8 counterexample: the claim says the out-of-range panic carries the
fixed message "index out of bounds", but the source panics with
"Index out of bounds" (capital I), so indexing (0,0,0,0) at 4 does not
produce the claimed message. -/
theorem index_message_counterexample :
    Vec4.index (Vec4.new 0 0 0 0) 4 ≠ Except.error "index out of bounds" := by
  simp [Vec4.index, Vec4.new]

/-- C8 amended: indices 0, 1, 2, 3 return the x, y, z, w lane, and every
index greater than 3 is the unrecoverable panic path carrying the fixed
message "Index out of bounds" (capital I), for reads and for writes. -/
theorem index_access_amended (v : Vec4) (value : ℝ) :
    Vec4.index v 0 = Except.ok v.x ∧
    Vec4.index v 1 = Except.ok v.y ∧
    Vec4.index v 2 = Except.ok v.z ∧
    Vec4.index v 3 = Except.ok v.w ∧
    ∀ n : Nat, 3 < n →
      Vec4.index v n = Except.error "Index out of bounds" ∧
      Vec4.indexMut v n value = Except.error "Index out of bounds" := by
  refine ⟨rfl, rfl, rfl, rfl, ?_⟩
  intro n hn
  obtain ⟨m, rfl⟩ : ∃ m, n = m + 4 := ⟨n - 4, by omega⟩
  exact ⟨rfl, rfl⟩

/-- C8 witness: index_access_amended applied at v = (1,2,3,4), value 0,
with the out-of-range part instantiated at index 4. -/
theorem index_access_amended_witness :
    Vec4.index (Vec4.new 1 2 3 4) 4 = Except.error "Index out of bounds" :=
  ((index_access_amended (Vec4.new 1 2 3 4) 0).2.2.2.2 4 (by decide)).1

/-- C9: for every receiver, axis and angle, rodrigues produces a
pure-rotation affine matrix: elements 3, 7, 11 (bottom row of the linear
part), 12, 13, 14 (translation column) are 0 and element 15 is 1,
regardless of the axis's length or w lane. -/
theorem rodrigues_affine_invariant (m : Mat4) (axis : Vec4) (angle : ℝ) :
    (m.rodrigues axis angle).elements 3 = 0 ∧
    (m.rodrigues axis angle).elements 7 = 0 ∧
    (m.rodrigues axis angle).elements 11 = 0 ∧
    (m.rodrigues axis angle).elements 12 = 0 ∧
    (m.rodrigues axis angle).elements 13 = 0 ∧
    (m.rodrigues axis angle).elements 14 = 0 ∧
    (m.rodrigues axis angle).elements 15 = 1 := by
  simp +decide [Mat4.rodrigues, Function.update_apply]

/-- C10: the in-place product mulAssign accumulates into a fresh array
read-independent of self, so applying it with both operands equal to the
same matrix m agrees element-wise with the out-of-place product m * m,
and in general the out-of-place product (a copy followed by MulAssign)
agrees with mulAssign on all inputs. -/
theorem mul_agrees_with_mulAssign (m a b : Mat4) :
    (m.mulAssign m).elements = (m.mulMat m).elements ∧
    a.mulMat b = a.mulAssign b :=
  ⟨rfl, rfl⟩
